import Mathlib

/-!
Verification of the cache-coordinated usage fetch service in
`usage_server.py`.  The Python source is shallowly embedded: the mutable
module-level `_cache` dict becomes an explicit `CacheState` value threaded
through `get_usage`; the two external effects (macOS keychain read and the
upstream HTTP call) become parameters of an `Env` record describing the
outcome each effect would produce during the call; Python exceptions become
an explicit `PyError` sum carried in `Except` / `Outcome`.  Python float
time (`time.monotonic()`) is modelled as `ℚ`, with Python's banker-rounding
`round` as `pyRound`.
-/

/-- JSON values, the domain of `json.loads` results.  Python `None` and
JSON `null` are the same value, represented by `JsonValue.null`. -/
inductive JsonValue where
  | null
  | bool (b : Bool)
  | num (q : ℚ)
  | str (s : String)
  | arr (elems : List JsonValue)
  | obj (fields : List (String × JsonValue))

/-- Python truthiness of a JSON value: `None`, `False`, `0`, `""`, `[]`,
`{}` are falsy, everything else truthy.  This is the test performed by
`if _cache["data"]` and `if not token`. -/
def JsonValue.truthy : JsonValue → Bool
  | .null => false
  | .bool b => b
  | .num q => q ≠ 0
  | .str s => s ≠ ""
  | .arr elems => !elems.isEmpty
  | .obj fields => !fields.isEmpty

/-- Python 3 `round` to the nearest integer, ties to even (banker's
rounding), on the rational model of float time differences. -/
def pyRound (q : ℚ) : ℤ :=
  if q - ⌊q⌋ < 1/2 then ⌊q⌋
  else if 1/2 < q - ⌊q⌋ then ⌊q⌋ + 1
  else if ⌊q⌋ % 2 = 0 then ⌊q⌋ else ⌊q⌋ + 1

/-- Python exceptions that can arise in this program.  `runtimeError` is
the only kind caught by `do_GET`'s `except RuntimeError`; `jsonDecodeError`
(a `ValueError`), `keyError` and `typeError` escape it. -/
inductive PyError where
  | runtimeError (msg : String)
  | jsonDecodeError (detail : String)
  | keyError (key : String)
  | typeError (detail : String)
deriving DecidableEq

/-- Python subscripting `v[k]` with a string key: succeeds on a dict that
has the key, raises `KeyError` on a dict without it, and raises
`TypeError` on every non-dict value (lists and strings reject string
indices; `None`, numbers and booleans are not subscriptable). -/
def pySubscript (v : JsonValue) (k : String) : Except PyError JsonValue :=
  match v with
  | .obj fields =>
    match fields.lookup k with
    | some w => .ok w
    | none => .error (.keyError k)
  | _ => .error (.typeError "value is not subscriptable with a string key")

/-- Python `f"{e}"` for a `KeyError` carrying key `k` renders as `'k'`. -/
def keyErrRepr (k : String) : String := "\x27" ++ k ++ "\x27"

/-- The state of the keychain entry `Claude Code-credentials` as seen by
`read_keychain_token`: the `security` command fails (`absent`), the value
is not JSON (`unparseable`, carrying the `JSONDecodeError` message), or it
parses to a JSON value (`parsed`). -/
inductive KeychainEntry where
  | absent
  | unparseable (detail : String)
  | parsed (v : JsonValue)

def msgKeychainNotFound : String :=
  "Keychain-Eintrag \x27Claude Code-credentials\x27 nicht gefunden. Stelle sicher, dass Claude Code installiert und angemeldet ist."

def msgMalformedEntry (detail : String) : String :=
  "Unerwartetes Format des Keychain-Eintrags: " ++ detail

def msgEmptyAccessToken : String := "accessToken ist leer."

/-- Embedding of `read_keychain_token`.  The `try` around
`json.loads`/`creds["claudeAiOauth"]["accessToken"]` catches only
`JSONDecodeError` and `KeyError` (re-raised as `RuntimeError`); a
`TypeError` from subscripting a non-dict propagates unchanged.  A falsy
extracted token raises `RuntimeError("accessToken ist leer.")`. -/
def read_keychain_token (e : KeychainEntry) : Except PyError JsonValue :=
  match e with
  | .absent => .error (.runtimeError msgKeychainNotFound)
  | .unparseable detail => .error (.runtimeError (msgMalformedEntry detail))
  | .parsed v =>
    match pySubscript v "claudeAiOauth" with
    | .error (.keyError k) => .error (.runtimeError (msgMalformedEntry (keyErrRepr k)))
    | .error err => .error err
    | .ok w =>
      match pySubscript w "accessToken" with
      | .error (.keyError k) => .error (.runtimeError (msgMalformedEntry (keyErrRepr k)))
      | .error err => .error err
      | .ok tok =>
        if tok.truthy then .ok tok else .error (.runtimeError msgEmptyAccessToken)

/-- The upstream call's outcome, as `urllib` presents it to
`fetch_usage_from_anthropic`: a 2xx response whose body is `body` and
whose `json.loads` result is `parsed` (`none` when the body is not valid
JSON), an `HTTPError` with status and body, or a `URLError`. -/
inductive HttpResponse where
  | ok (body : String) (parsed : Option JsonValue)
  | httpError (code : ℕ) (body : String)
  | urlError (reason : String)

def msgAuthExpired (code : ℕ) : String :=
  s!"Token abgelaufen oder ungültig (HTTP {code}). Bitte in Claude Code neu anmelden."

def msgUpstreamError (code : ℕ) (body : String) : String :=
  s!"Anthropic API Fehler HTTP {code}: {body}"

def msgNetworkError (reason : String) : String :=
  s!"Netzwerkfehler: {reason}"

/-- Embedding of `fetch_usage_from_anthropic`.  401/403 and other HTTP
errors and `URLError` are re-raised as `RuntimeError`; note the `except`
clauses do NOT cover `json.loads`, so an unparseable 2xx body raises a
bare `json.JSONDecodeError`. -/
def fetch_usage_from_anthropic (r : HttpResponse) : Except PyError JsonValue :=
  match r with
  | .ok body parsed =>
    match parsed with
    | some v => .ok v
    | none => .error (.jsonDecodeError body)
  | .httpError code body =>
    if code = 401 ∨ code = 403 then .error (.runtimeError (msgAuthExpired code))
    else .error (.runtimeError (msgUpstreamError code body))
  | .urlError reason => .error (.runtimeError (msgNetworkError reason))

/-- The module-level `_cache` dict.  `data` starts as Python `None`
(= `JsonValue.null`); `fetched_at` starts as `0.0`; the key
`fetched_at_iso` is absent initially (`none`) and only ever written by a
successful fetch. -/
structure CacheState where
  data : JsonValue
  fetched_at : ℚ
  fetched_at_iso : Option String

/-- `_cache = {"data": None, "fetched_at": 0.0}`. -/
def initCache : CacheState := { data := .null, fetched_at := 0, fetched_at_iso := none }

/-- The outcomes the environment supplies to one `get_usage` call: the
keychain entry, the upstream response that a fetch would see, and the
wall-clock ISO string `datetime.now(timezone.utc).isoformat()` would
produce. -/
structure Env where
  keychain : KeychainEntry
  response : HttpResponse
  isoNow : String

/-- The response dict built by `get_usage`. -/
structure UsageResult where
  cached : Bool
  cache_age_seconds : ℤ
  fetched_at : String
  usage : JsonValue

/-- Normal return or raised exception of `get_usage`. -/
inductive Outcome where
  | ok (u : UsageResult)
  | exc (e : PyError)

/-- Result of one `get_usage` call: its outcome, the cache state after the
call, and how many keychain reads and upstream fetch attempts it made. -/
structure GUResult where
  outcome : Outcome
  cache : CacheState
  credReads : ℕ
  fetches : ℕ

/-- The guard of the cached branch:
`not force_refresh and _cache["data"] and (now - _cache["fetched_at"]) < CACHE_TTL_SECONDS`. -/
def hitCond (force : Bool) (now : ℚ) (c : CacheState) : Bool :=
  !force && c.data.truthy && decide (now - c.fetched_at < 300)

/-- Embedding of `get_usage`.  On the cached branch it reads
`_cache["fetched_at_iso"]`, which raises `KeyError` if that key was never
written; otherwise it reads the token, fetches, and on success overwrites
all three cache keys and returns the fresh payload. -/
def get_usage (force : Bool) (now : ℚ) (env : Env) (c : CacheState) : GUResult :=
  if hitCond force now c then
    match c.fetched_at_iso with
    | some iso =>
      { outcome := .ok { cached := true, cache_age_seconds := pyRound (now - c.fetched_at),
                         fetched_at := iso, usage := c.data },
        cache := c, credReads := 0, fetches := 0 }
    | none =>
      { outcome := .exc (.keyError "fetched_at_iso"), cache := c, credReads := 0, fetches := 0 }
  else
    match read_keychain_token env.keychain with
    | .error e => { outcome := .exc e, cache := c, credReads := 1, fetches := 0 }
    | .ok _ =>
      match fetch_usage_from_anthropic env.response with
      | .error e => { outcome := .exc e, cache := c, credReads := 1, fetches := 1 }
      | .ok data =>
        { outcome := .ok { cached := false, cache_age_seconds := 0,
                           fetched_at := env.isoNow, usage := data },
          cache := { data := data, fetched_at := now, fetched_at_iso := some env.isoNow },
          credReads := 1, fetches := 1 }

/-- Cache states reachable from the initial state by any sequence of
`get_usage` calls under arbitrary environments. -/
inductive Reachable : CacheState → Prop
  | init : Reachable initCache
  | step (f : Bool) (now : ℚ) (env : Env) {c : CacheState} :
      Reachable c → Reachable (get_usage f now env c).cache

/-- `self.path.rstrip("/")`: drop every trailing slash. -/
def rstripSlash (s : String) : String :=
  String.mk ((s.toList.reverse.dropWhile (fun ch => ch = '/')).reverse)

/-- Body of a JSON reply sent by the handler. -/
inductive ReplyBody where
  | usageResult (u : UsageResult)
  | errorMsg (msg : String)
  | health
  | notFound

/-- Either a JSON reply with an HTTP status, or an exception that escaped
`do_GET` (so no response is written for the request). -/
inductive HttpReply where
  | reply (status : ℕ) (body : ReplyBody)
  | uncaught (e : PyError)

/-- Embedding of `UsageHandler.do_GET`: routing on the slash-stripped
path; on `/usage` and `/usage/fresh` it calls `get_usage` and turns a
`RuntimeError` into a 500 — any other exception escapes the handler. -/
def do_GET (path : String) (now : ℚ) (env : Env) (c : CacheState) : HttpReply × CacheState :=
  let p := rstripSlash path
  if p = "/health" then (.reply 200 .health, c)
  else if p = "/usage" ∨ p = "/usage/fresh" then
    let force := p = "/usage/fresh"
    let r := get_usage force now env c
    match r.outcome with
    | .ok u => (.reply 200 (.usageResult u), r.cache)
    | .exc (.runtimeError m) => (.reply 500 (.errorMsg m), r.cache)
    | .exc e => (.uncaught e, r.cache)
  else (.reply 404 .notFound, c)

/-- Restatement of `read_keychain_token`'s error classification organised
by the shape of the keychain entry, used to compare the implementation
with the (amended) specification wording: "entry not found" when the
store entry is missing; "malformed credential" when the JSON parse fails
or a dict lookup misses its key; an uncaught `TypeError` when an
intermediate value is not a dict; "empty token" when the extracted token
is falsy; otherwise the token. -/
def credReaderSpec (e : KeychainEntry) : Except PyError JsonValue :=
  match e with
  | .absent => .error (.runtimeError msgKeychainNotFound)
  | .unparseable detail => .error (.runtimeError (msgMalformedEntry detail))
  | .parsed (.obj fields) =>
    match fields.lookup "claudeAiOauth" with
    | none => .error (.runtimeError (msgMalformedEntry (keyErrRepr "claudeAiOauth")))
    | some (.obj inner) =>
      match inner.lookup "accessToken" with
      | none => .error (.runtimeError (msgMalformedEntry (keyErrRepr "accessToken")))
      | some tok =>
        if tok.truthy then .ok tok else .error (.runtimeError msgEmptyAccessToken)
    | some _ => .error (.typeError "value is not subscriptable with a string key")
  | .parsed _ => .error (.typeError "value is not subscriptable with a string key")

/-! ### Concrete inputs used by counterexamples and witnesses -/

/-- A well-formed keychain entry holding a non-empty access token. -/
def goodKeychain : KeychainEntry :=
  .parsed (.obj [("claudeAiOauth", .obj [("accessToken", .str "tok-123")])])

/-- Environment: good credentials, upstream 2xx whose body parses to the
empty JSON object (a falsy payload in Python). -/
def envEmptyPayload : Env :=
  { keychain := goodKeychain, response := .ok "e" (some (.obj [])), isoNow := "iso-0" }

/-- Environment: good credentials, upstream 2xx parsing to a non-empty
object. -/
def envRich : Env :=
  { keychain := goodKeychain,
    response := .ok "b" (some (.obj [("five_hour", .num 1)])),
    isoNow := "2025-01-01T00:00:00+00:00" }

/-- Environment: the keychain entry is missing. -/
def envAbsent : Env :=
  { keychain := .absent, response := .urlError "unused", isoNow := "iso-a" }

/-- Environment: good credentials, upstream 2xx whose body is not valid
JSON. -/
def envBadBody : Env :=
  { keychain := goodKeychain, response := .ok "garbage" none, isoNow := "iso-b" }

/-- Environment: good credentials, upstream replies HTTP 401. -/
def env401 : Env :=
  { keychain := goodKeychain, response := .httpError 401 "denied", isoNow := "iso-4" }

/-- The cache after a successful fetch of the empty-object payload at
monotonic time 0 (what `get_usage` leaves behind under
`envEmptyPayload`). -/
def cacheEmptyPayload : CacheState :=
  { data := .obj [], fetched_at := 0, fetched_at_iso := some "iso-0" }

/-- The cache after a successful fetch of the non-empty payload at
monotonic time 0 (what `get_usage` leaves behind under `envRich`). -/
def cachePayload : CacheState :=
  { data := .obj [("five_hour", .num 1)], fetched_at := 0,
    fetched_at_iso := some "2025-01-01T00:00:00+00:00" }

/-- A keychain entry that parses to a dict whose `claudeAiOauth` value is
a string, so that the nested access-token field is missing but the second
subscript raises `TypeError` rather than `KeyError`. -/
def badTypeEntry : KeychainEntry := .parsed (.obj [("claudeAiOauth", .str "oops")])

/-- The result of the cached branch at `cachePayload` with `now = 0`. -/
def hitResultAtZero : UsageResult :=
  { cached := true, cache_age_seconds := 0,
    fetched_at := "2025-01-01T00:00:00+00:00",
    usage := .obj [("five_hour", .num 1)] }

/-! ### Helper lemmas -/

/-- The cached-branch guard, spelled out. -/
lemma hitCond_iff (force : Bool) (now : ℚ) (c : CacheState) :
    hitCond force now c = true ↔
      force = false ∧ c.data.truthy = true ∧ now - c.fetched_at < 300 := by
  simp [hitCond, and_assoc]

/-- Forced refresh never takes the cached branch. -/
lemma hitCond_force (now : ℚ) (c : CacheState) : hitCond true now c = false := by
  simp [hitCond]

/-- One `get_usage` call either leaves the cache untouched or replaces it
whole, with `fetched_at = now` and a present ISO timestamp. -/
lemma get_usage_cache_cases (f : Bool) (now : ℚ) (env : Env) (c : CacheState) :
    (get_usage f now env c).cache = c ∨
      ∃ d, (get_usage f now env c).cache =
        { data := d, fetched_at := now, fetched_at_iso := some env.isoNow } := by
  unfold get_usage
  split
  · split
    · exact Or.inl rfl
    · exact Or.inl rfl
  · rcases hk : read_keychain_token env.keychain with e | t
    · exact Or.inl rfl
    · rcases hf : fetch_usage_from_anthropic env.response with e | d
      · exact Or.inl rfl
      · exact Or.inr ⟨d, rfl⟩

/-- Invariant of reachable cache states: a payload distinct from Python
`None` is only ever in the cache together with an ISO timestamp. -/
lemma reachable_iso_present {c : CacheState} (h : Reachable c) :
    c.data ≠ JsonValue.null → c.fetched_at_iso.isSome = true := by
  induction h with
  | init => intro hd; exact absurd rfl hd
  | step f now env hr ih =>
    rcases get_usage_cache_cases f now env _ with hc | ⟨d, hc⟩
    · rw [hc]; exact ih
    · rw [hc]; intro _; rfl

/-- Truthy JSON values are not `null`. -/
lemma truthy_ne_null {v : JsonValue} (h : v.truthy = true) : v ≠ JsonValue.null := by
  intro hv; rw [hv] at h; exact absurd h (by simp [JsonValue.truthy])

/-- `cacheEmptyPayload` is what one successful fetch of the empty object
leaves behind. -/
lemma cacheEmptyPayload_step :
    (get_usage false 0 envEmptyPayload initCache).cache = cacheEmptyPayload := rfl

/-- `cachePayload` is what one successful fetch of the non-empty payload
leaves behind. -/
lemma cachePayload_step :
    (get_usage false 0 envRich initCache).cache = cachePayload := rfl

lemma reachable_cacheEmptyPayload : Reachable cacheEmptyPayload :=
  cacheEmptyPayload_step ▸ Reachable.step false 0 envEmptyPayload Reachable.init

lemma reachable_cachePayload : Reachable cachePayload :=
  cachePayload_step ▸ Reachable.step false 0 envRich Reachable.init

/-- The guard holds at `cachePayload` for `now = 0`, `force = false`. -/
lemma hitCond_cachePayload : hitCond false 0 cachePayload = true := by
  rw [hitCond_iff]
  refine ⟨rfl, by simp [cachePayload, JsonValue.truthy], ?_⟩
  norm_num [cachePayload]

/-- The guard fails at `cacheEmptyPayload` (falsy payload), even fresh. -/
lemma hitCond_cacheEmptyPayload (now : ℚ) :
    hitCond false now cacheEmptyPayload = false := by
  simp [hitCond, cacheEmptyPayload, JsonValue.truthy]

/-- `pyRound 0 = 0`. -/
lemma pyRound_zero : pyRound 0 = 0 := by norm_num [pyRound]

/-- Python `round` of a non-negative rational is non-negative. -/
lemma pyRound_nonneg {q : ℚ} (h : 0 ≤ q) : 0 ≤ pyRound q := by
  have hf : (0 : ℤ) ≤ ⌊q⌋ := Int.le_floor.mpr (by exact_mod_cast h)
  unfold pyRound
  split
  · exact hf
  split
  · omega
  split
  · exact hf
  · omega

/-! ### Claims -/

/-- C1, counterexample: in the reachable cache state left by a successful
fetch of the empty JSON object, a snapshot exists (non-`None` payload and
ISO timestamp both present) and is fresh at `now = 1` with
`forceRefresh = false`, yet `get_usage` takes the fresh-fetch path
(one credential read and one upstream fetch) because the guard tests the
payload's truthiness, not its existence. -/
theorem C1_counterexample :
    Reachable cacheEmptyPayload ∧
    cacheEmptyPayload.data ≠ JsonValue.null ∧
    cacheEmptyPayload.fetched_at_iso.isSome = true ∧
    (1 : ℚ) - cacheEmptyPayload.fetched_at < 300 ∧
    (get_usage false 1 envEmptyPayload cacheEmptyPayload).credReads = 1 ∧
    (get_usage false 1 envEmptyPayload cacheEmptyPayload).fetches = 1 :=
  ⟨reachable_cacheEmptyPayload,
   by simp [cacheEmptyPayload],
   rfl,
   by norm_num [cacheEmptyPayload],
   rfl,
   rfl⟩

/-- C1 (amended): the decision to serve from the cache — equivalently, to
perform no credential read and no upstream fetch — is taken exactly when
`forceRefresh` is false, the cached payload is truthy (in particular a
falsy payload such as the empty object counts as no snapshot), and
`now - fetched_at < 300`; in every other case the fresh-fetch path is
taken. -/
theorem C1_amended (force : Bool) (now : ℚ) (env : Env) (c : CacheState) :
    ((get_usage force now env c).credReads = 0 ∧ (get_usage force now env c).fetches = 0) ↔
      (force = false ∧ c.data.truthy = true ∧ now - c.fetched_at < 300) := by
  rw [← hitCond_iff]
  by_cases h : hitCond force now c = true
  · unfold get_usage
    rw [if_pos h]
    cases hiso : c.fetched_at_iso <;> simp [h]
  · unfold get_usage
    rw [if_neg h]
    rcases hk : read_keychain_token env.keychain with e | t
    · simp [h]
    · rcases hf : fetch_usage_from_anthropic env.response with e | d <;> simp [h]

/-- C2: when `get_usage` takes the fetch path, a failing credential read
or a failing upstream fetch propagates as that very exception and leaves
the cache exactly as it was; and in every case the cache is either
untouched or replaced whole by the freshly fetched payload with the new
timestamps. -/
theorem C2_fail_fast (force : Bool) (now : ℚ) (env : Env) (c : CacheState)
    (h : hitCond force now c = false) :
    (∀ e, read_keychain_token env.keychain = .error e →
        (get_usage force now env c).outcome = .exc e ∧
        (get_usage force now env c).cache = c) ∧
    (∀ t e, read_keychain_token env.keychain = .ok t →
        fetch_usage_from_anthropic env.response = .error e →
        (get_usage force now env c).outcome = .exc e ∧
        (get_usage force now env c).cache = c) ∧
    ((get_usage force now env c).cache = c ∨
      ∃ P, fetch_usage_from_anthropic env.response = .ok P ∧
        (get_usage force now env c).outcome =
          .ok { cached := false, cache_age_seconds := 0,
                fetched_at := env.isoNow, usage := P } ∧
        (get_usage force now env c).cache =
          { data := P, fetched_at := now, fetched_at_iso := some env.isoNow }) := by
  refine ⟨?_, ?_, ?_⟩
  · intro e hk
    unfold get_usage
    rw [if_neg (by simp [h]), hk]
    exact ⟨rfl, rfl⟩
  · intro t e hk hf
    unfold get_usage
    rw [if_neg (by simp [h]), hk, hf]
    exact ⟨rfl, rfl⟩
  · unfold get_usage
    rw [if_neg (by simp [h])]
    rcases hk : read_keychain_token env.keychain with e | t
    · exact Or.inl rfl
    · rcases hf : fetch_usage_from_anthropic env.response with e | d
      · exact Or.inl rfl
      · exact Or.inr ⟨d, rfl, rfl, rfl⟩

/-- C2, witness: with the keychain entry missing and an empty cache, the
call raises the not-found error and the cache is unchanged. -/
theorem C2_fail_fast_witness :
    (get_usage false 0 envAbsent initCache).outcome =
      .exc (.runtimeError msgKeychainNotFound) ∧
    (get_usage false 0 envAbsent initCache).cache = initCache :=
  (C2_fail_fast false 0 envAbsent initCache rfl).1 (.runtimeError msgKeychainNotFound) rfl

/-- C3: on the cached branch in a reachable state, `get_usage` performs
no credential read and no fetch and returns the stored snapshot:
`cached = true`, `cache_age_seconds = round(now - fetched_at)`, the
stored ISO timestamp, and the stored payload; the cache is unchanged. -/
theorem C3_hit_path (force : Bool) (now : ℚ) (env : Env) (c : CacheState)
    (hr : Reachable c) (h : hitCond force now c = true) :
    ∃ iso, c.fetched_at_iso = some iso ∧
      get_usage force now env c =
        { outcome := .ok { cached := true,
                           cache_age_seconds := pyRound (now - c.fetched_at),
                           fetched_at := iso, usage := c.data },
          cache := c, credReads := 0, fetches := 0 } := by
  have hd : c.data.truthy = true := ((hitCond_iff force now c).mp h).2.1
  have hiso := reachable_iso_present hr (truthy_ne_null hd)
  rcases Option.isSome_iff_exists.mp hiso with ⟨iso, hiso'⟩
  refine ⟨iso, hiso', ?_⟩
  unfold get_usage
  rw [if_pos h, hiso']

/-- C3, witness: the cached branch at the reachable state holding the
non-empty payload, evaluated at `now = 0`. -/
theorem C3_hit_path_witness :
    ∃ iso, cachePayload.fetched_at_iso = some iso ∧
      get_usage false 0 envAbsent cachePayload =
        { outcome := .ok { cached := true,
                           cache_age_seconds := pyRound (0 - cachePayload.fetched_at),
                           fetched_at := iso, usage := cachePayload.data },
          cache := cachePayload, credReads := 0, fetches := 0 } :=
  C3_hit_path false 0 envAbsent cachePayload reachable_cachePayload hitCond_cachePayload

/-- C4: on the fetch path, when the credential read returns a token and
the upstream fetch returns payload `P`, `get_usage` stores
`{payload = P, fetched_at = now}` together with the freshly captured ISO
timestamp, and returns `{cached = false, cache_age_seconds = 0,
fetched_at = <new ISO timestamp>, usage = P}`. -/
theorem C4_success_updates_cache (force : Bool) (now : ℚ) (env : Env)
    (c : CacheState) (t P : JsonValue)
    (h : hitCond force now c = false)
    (hk : read_keychain_token env.keychain = .ok t)
    (hf : fetch_usage_from_anthropic env.response = .ok P) :
    get_usage force now env c =
      { outcome := .ok { cached := false, cache_age_seconds := 0,
                         fetched_at := env.isoNow, usage := P },
        cache := { data := P, fetched_at := now, fetched_at_iso := some env.isoNow },
        credReads := 1, fetches := 1 } := by
  unfold get_usage
  rw [if_neg (by simp [h]), hk, hf]

/-- C4, witness: a successful fetch of the non-empty payload from the
empty initial cache. -/
theorem C4_success_updates_cache_witness :
    get_usage false 0 envRich initCache =
      { outcome := .ok { cached := false, cache_age_seconds := 0,
                         fetched_at := envRich.isoNow,
                         usage := .obj [("five_hour", .num 1)] },
        cache := { data := .obj [("five_hour", .num 1)], fetched_at := 0,
                   fetched_at_iso := some envRich.isoNow },
        credReads := 1, fetches := 1 } :=
  C4_success_updates_cache false 0 envRich initCache (.str "tok-123")
    (.obj [("five_hour", .num 1)]) rfl rfl rfl

/-- Routing of `/usage/fresh`: the handler always calls `get_usage` with
`force_refresh = true` and dispatches on its outcome. -/
lemma do_GET_usage_fresh (now : ℚ) (env : Env) (c : CacheState) :
    do_GET "/usage/fresh" now env c =
      (match (get_usage true now env c).outcome with
       | .ok u => (.reply 200 (.usageResult u), (get_usage true now env c).cache)
       | .exc (.runtimeError m) => (.reply 500 (.errorMsg m), (get_usage true now env c).cache)
       | .exc e => (.uncaught e, (get_usage true now env c).cache)) := rfl

/-- On the fetch path with good credentials, a failing fetch is raised
unchanged. -/
lemma get_usage_fetch_error (now : ℚ) (env : Env) (c : CacheState) (t : JsonValue)
    (e : PyError) (hk : read_keychain_token env.keychain = .ok t)
    (hf : fetch_usage_from_anthropic env.response = .error e) :
    get_usage true now env c =
      { outcome := .exc e, cache := c, credReads := 1, fetches := 1 } := by
  unfold get_usage
  rw [if_neg (by simp [hitCond_force]), hk, hf]

/-- C5, counterexample: good credentials and a 2xx upstream response whose
body is not valid JSON make `do_GET` on `/usage/fresh` raise a bare
`json.JSONDecodeError`, which `except RuntimeError` does not catch: no
500 reply (nor any reply) is sent, contradicting the claim that a
malformed body is surfaced as a 500 "upstream error". -/
theorem C5_counterexample :
    (do_GET "/usage/fresh" 0 envBadBody initCache).1 =
      .uncaught (.jsonDecodeError "garbage") ∧
    ∀ m, (do_GET "/usage/fresh" 0 envBadBody initCache).1 ≠
      .reply 500 (.errorMsg m) := by
  refine ⟨rfl, ?_⟩
  intro m hm
  have h2 : (HttpReply.uncaught (.jsonDecodeError "garbage")) =
      HttpReply.reply 500 (.errorMsg m) := hm
  exact HttpReply.noConfusion h2

/-- C5 (amended): with good credentials, HTTP 401/403 from upstream is
surfaced as a 500 carrying the re-authentication message, any other HTTP
error as a 500 carrying status and body, and a `URLError` as a 500
carrying the network message; but a 2xx response with an unparseable body
raises an uncaught `json.JSONDecodeError`, so no 500 is sent in that
case. -/
theorem C5_amended (now : ℚ) (env : Env) (c : CacheState) (t : JsonValue)
    (hk : read_keychain_token env.keychain = .ok t) :
    (∀ code body, env.response = .httpError code body → (code = 401 ∨ code = 403) →
        (do_GET "/usage/fresh" now env c).1 =
          .reply 500 (.errorMsg (msgAuthExpired code))) ∧
    (∀ code body, env.response = .httpError code body → ¬(code = 401 ∨ code = 403) →
        (do_GET "/usage/fresh" now env c).1 =
          .reply 500 (.errorMsg (msgUpstreamError code body))) ∧
    (∀ reason, env.response = .urlError reason →
        (do_GET "/usage/fresh" now env c).1 =
          .reply 500 (.errorMsg (msgNetworkError reason))) ∧
    (∀ body, env.response = .ok body none →
        (do_GET "/usage/fresh" now env c).1 =
          .uncaught (.jsonDecodeError body)) := by
  refine ⟨?_, ?_, ?_, ?_⟩
  · intro code body hresp h401
    have hf : fetch_usage_from_anthropic env.response =
        .error (.runtimeError (msgAuthExpired code)) := by
      rw [hresp]; simp only [fetch_usage_from_anthropic]; rw [if_pos h401]
    rw [do_GET_usage_fresh, get_usage_fetch_error now env c t _ hk hf]
  · intro code body hresp h401
    have hf : fetch_usage_from_anthropic env.response =
        .error (.runtimeError (msgUpstreamError code body)) := by
      rw [hresp]; simp only [fetch_usage_from_anthropic]; rw [if_neg h401]
    rw [do_GET_usage_fresh, get_usage_fetch_error now env c t _ hk hf]
  · intro reason hresp
    have hf : fetch_usage_from_anthropic env.response =
        .error (.runtimeError (msgNetworkError reason)) := by rw [hresp]; rfl
    rw [do_GET_usage_fresh, get_usage_fetch_error now env c t _ hk hf]
  · intro body hresp
    have hf : fetch_usage_from_anthropic env.response =
        .error (.jsonDecodeError body) := by rw [hresp]; rfl
    rw [do_GET_usage_fresh, get_usage_fetch_error now env c t _ hk hf]

/-- C5, witness: upstream HTTP 401 is surfaced as a 500 with the
re-authentication message. -/
theorem C5_amended_witness :
    (do_GET "/usage/fresh" 0 env401 initCache).1 =
      .reply 500 (.errorMsg (msgAuthExpired 401)) :=
  (C5_amended 0 env401 initCache (.str "tok-123") rfl).1 401 "denied" rfl (Or.inl rfl)

/-- The cached branch at `cachePayload` with `now = 0` returns exactly
`hitResultAtZero` (in particular `cached = true` with age 0). -/
lemma get_usage_hit_cachePayload (env : Env) :
    (get_usage false 0 env cachePayload).outcome = Outcome.ok hitResultAtZero := by
  have hage : pyRound ((0 : ℚ) - cachePayload.fetched_at) = 0 := by
    rw [show ((0 : ℚ) - cachePayload.fetched_at) = 0 by norm_num [cachePayload]]
    exact pyRound_zero
  unfold get_usage
  rw [if_pos hitCond_cachePayload]
  show Outcome.ok { cached := true,
                    cache_age_seconds := pyRound ((0 : ℚ) - cachePayload.fetched_at),
                    fetched_at := "2025-01-01T00:00:00+00:00",
                    usage := cachePayload.data } = Outcome.ok hitResultAtZero
  rw [hage]
  rfl

/-- C6, counterexample: a cache hit immediately after a successful fetch
(reachable state, `now` equal to the fetch time) returns a result with
`cached = true` and `cache_age_seconds = 0`, contradicting the claim that
`cached = true` implies `cache_age_seconds ≠ 0`. -/
theorem C6_counterexample :
    Reachable cachePayload ∧
    (get_usage false 0 envAbsent cachePayload).outcome = Outcome.ok hitResultAtZero ∧
    hitResultAtZero.cached = true ∧
    hitResultAtZero.cache_age_seconds = 0 :=
  ⟨reachable_cachePayload, get_usage_hit_cachePayload envAbsent, rfl, rfl⟩

/-- C6 (amended): for every result returned by `get_usage`,
`cached = false` implies `cache_age_seconds = 0`, and `cached = true`
implies `cache_age_seconds = round(now - fetched_at)`, which is
non-negative whenever `now` is at least the stored fetch time (the
rounded age can be 0 on a hit immediately after a fetch). -/
theorem C6_amended (force : Bool) (now : ℚ) (env : Env) (c : CacheState)
    (u : UsageResult)
    (h : (get_usage force now env c).outcome = .ok u) :
    (u.cached = false → u.cache_age_seconds = 0) ∧
    (u.cached = true →
      u.cache_age_seconds = pyRound (now - c.fetched_at) ∧
      (c.fetched_at ≤ now → 0 ≤ u.cache_age_seconds)) := by
  unfold get_usage at h
  by_cases hc : hitCond force now c = true
  · rw [if_pos hc] at h
    rcases hiso : c.fetched_at_iso with _ | iso
    · rw [hiso] at h; simp at h
    · rw [hiso] at h
      have h2 : Outcome.ok { cached := true,
                             cache_age_seconds := pyRound (now - c.fetched_at),
                             fetched_at := iso,
                             usage := c.data } = Outcome.ok u := h
      cases h2
      constructor
      · intro hx; simp at hx
      · intro _
        exact ⟨rfl, fun hle => pyRound_nonneg (sub_nonneg.mpr hle)⟩
  · rw [if_neg hc] at h
    rcases hk : read_keychain_token env.keychain with e | t
    · rw [hk] at h; simp at h
    · rw [hk] at h
      rcases hf : fetch_usage_from_anthropic env.response with e | d
      · rw [hf] at h; simp at h
      · rw [hf] at h
        have h2 : Outcome.ok { cached := false,
                               cache_age_seconds := 0,
                               fetched_at := env.isoNow,
                               usage := d } = Outcome.ok u := h
        cases h2
        constructor
        · intro _; rfl
        · intro hx; simp at hx

/-- C6, witness: the amended invariant evaluated at the hit result
returned in the reachable state `cachePayload` at `now = 0`. -/
theorem C6_amended_witness :
    (hitResultAtZero.cached = false → hitResultAtZero.cache_age_seconds = 0) ∧
    (hitResultAtZero.cached = true →
      hitResultAtZero.cache_age_seconds = pyRound ((0 : ℚ) - cachePayload.fetched_at) ∧
      (cachePayload.fetched_at ≤ 0 → 0 ≤ hitResultAtZero.cache_age_seconds)) :=
  C6_amended false 0 envAbsent cachePayload hitResultAtZero
    (get_usage_hit_cachePayload envAbsent)

/-- C7, counterexample: a forced refresh whose credential read fails makes
no upstream fetch attempt at all, contradicting "exactly one upstream
fetch attempt" for every forced call. -/
theorem C7_counterexample :
    (get_usage true 0 envAbsent initCache).credReads = 1 ∧
    (get_usage true 0 envAbsent initCache).fetches = 0 ∧
    (get_usage true 0 envAbsent initCache).fetches ≠ 1 :=
  ⟨rfl, rfl, by decide⟩

/-- C7 (amended): a forced refresh always bypasses the cache and performs
exactly one credential read, regardless of cache freshness; it performs
exactly one upstream fetch attempt when the credential read succeeds and
none when it fails. -/
theorem C7_amended (now : ℚ) (env : Env) (c : CacheState) :
    (get_usage true now env c).credReads = 1 ∧
    (get_usage true now env c).fetches =
      (match read_keychain_token env.keychain with
       | .ok _ => 1
       | .error _ => 0) := by
  unfold get_usage
  rw [if_neg (by simp [hitCond_force])]
  rcases hk : read_keychain_token env.keychain with e | t
  · exact ⟨rfl, rfl⟩
  · rcases hf : fetch_usage_from_anthropic env.response with e | d <;>
      exact ⟨rfl, rfl⟩

/-- C8, counterexample: a keychain entry parsing to
`{"claudeAiOauth": "oops"}` lacks the nested access-token field, but
`read_keychain_token` raises an uncaught `TypeError` (the second
subscript is applied to a string), not the "malformed credential"
`RuntimeError` the claim promises for this case. -/
theorem C8_counterexample :
    read_keychain_token badTypeEntry =
      .error (.typeError "value is not subscriptable with a string key") ∧
    ∀ m, read_keychain_token badTypeEntry ≠ .error (.runtimeError m) := by
  refine ⟨rfl, ?_⟩
  intro m hm
  have h2 : (Except.error (α := JsonValue)
      (PyError.typeError "value is not subscriptable with a string key")) =
      .error (.runtimeError m) := hm
  exact PyError.noConfusion (Except.error.inj h2)

/-- C8 (amended): `read_keychain_token` classifies every keychain entry
exactly as `credReaderSpec` does — "entry not found" for a missing entry,
"malformed credential" when the JSON parse fails or a dict lookup misses
its key, "empty token" for a falsy extracted token, the token itself
otherwise, and an uncaught `TypeError` (not a `RuntimeError`) when an
intermediate value is not a dict; all three error messages are fixed
strings (plus the exception detail) that never embed the token value. -/
theorem C8_amended_matches_spec (e : KeychainEntry) :
    read_keychain_token e = credReaderSpec e := by
  rcases e with _ | d | v
  · rfl
  · rfl
  · rcases v with _ | b | q | s | elems | fields
    · rfl
    · rfl
    · rfl
    · rfl
    · rfl
    · rcases h : fields.lookup "claudeAiOauth" with _ | w
      · simp [read_keychain_token, credReaderSpec, pySubscript, h]
      · rcases w with _ | b | q | s | elems | inner
        · simp [read_keychain_token, credReaderSpec, pySubscript, h]
        · simp [read_keychain_token, credReaderSpec, pySubscript, h]
        · simp [read_keychain_token, credReaderSpec, pySubscript, h]
        · simp [read_keychain_token, credReaderSpec, pySubscript, h]
        · simp [read_keychain_token, credReaderSpec, pySubscript, h]
        · rcases h2 : inner.lookup "accessToken" with _ | tok
          · simp [read_keychain_token, credReaderSpec, pySubscript, h, h2]
          · simp [read_keychain_token, credReaderSpec, pySubscript, h, h2]

/-- C9: in every reachable cache state, a stored payload other than
Python `None` comes with the ISO timestamp written by the same successful
fetch (`put` writes all three keys together, and nothing else writes the
cache), so whenever the cached branch is taken its read of
`_cache["fetched_at_iso"]` succeeds and the call returns a cached
result. -/
theorem C9_snapshot_invariant (c : CacheState) (hr : Reachable c) :
    (c.data ≠ JsonValue.null → c.fetched_at_iso.isSome = true) ∧
    (∀ (force : Bool) (now : ℚ) (env : Env), hitCond force now c = true →
      ∃ u, (get_usage force now env c).outcome = .ok u ∧ u.cached = true) := by
  refine ⟨reachable_iso_present hr, ?_⟩
  intro force now env h
  have hd : c.data.truthy = true := ((hitCond_iff force now c).mp h).2.1
  rcases Option.isSome_iff_exists.mp
    (reachable_iso_present hr (truthy_ne_null hd)) with ⟨iso, hiso⟩
  refine ⟨{ cached := true, cache_age_seconds := pyRound (now - c.fetched_at),
            fetched_at := iso, usage := c.data }, ?_, rfl⟩
  unfold get_usage
  rw [if_pos h, hiso]

/-- C9, witness: the invariant at the reachable state holding the
non-empty payload. -/
theorem C9_snapshot_invariant_witness :
    (cachePayload.data ≠ JsonValue.null → cachePayload.fetched_at_iso.isSome = true) ∧
    (∀ (force : Bool) (now : ℚ) (env : Env), hitCond force now cachePayload = true →
      ∃ u, (get_usage force now env cachePayload).outcome = .ok u ∧ u.cached = true) :=
  C9_snapshot_invariant cachePayload reachable_cachePayload
